import Mathlib

/-!
# Verification of the ESP32-CAM MJPEG multi-client streamer core

Shallow embedding of `src/esp32_camera_mjpeg_multiclient/esp32_camera_mjpeg_multiclient.ino`.

The embedding models:
  * the configuration constants (`FPS`, the client-registry capacity, the
    HTTP literals) — lines 85-88, 100, 256-263 of the source;
  * `allocateMemory` (lines 222-252);
  * the frame-slot capacity-growth step of `camCB` (lines 176-179);
  * `getParameterFromUrl` / `handleConfig` (lines 375-489), with Arduino
    `String::toInt` (= `atol`) modelled explicitly;
  * `handleJPGSstream` (lines 267-287);
  * one service step of `streamCB`'s registry rotation (lines 314-345);
  * the per-iteration action traces of `camCB`'s publish section and
    `streamCB`'s live-serve section, used to reason about which actions
    happen while the `frameSync` semaphore is held;
  * an interleaved small-step system of the `camCB` publish path and the
    `streamCB` serve path around the shared `camBuf` / `camSize` pair
    (lines 146-147, 189-202, 329-343), used to prove snapshot consistency.
-/

namespace Cam

/-! ## Configuration constants (source lines 85-88, 100) -/

/-- Source line 85: `const int FPS = 14;`. -/
def FPS : Nat := 14

/-- Client registry capacity: `xQueueCreate( 10, sizeof(WiFiClient*) )` — line 100. -/
def capacity : Nat := 10

/-- FreeRTOS tick rate on arduino-esp32: `configTICK_RATE_HZ = 1000`. -/
def tickRateHz : Nat := 1000

/-- FreeRTOS macro `pdMS_TO_TICKS(ms) = ms * configTICK_RATE_HZ / 1000`. -/
def pdMsToTicks (ms : Nat) : Nat := ms * tickRateHz / 1000

/-! ## `allocateMemory` (source lines 222-252)

Pointers are modelled as `Option Nat`: `none` is the C `NULL`, `some a` a
non-null address.  The results of the two C allocators are inputs to the
model (`mallocRes`, `psMallocRes`): the code only branches on whether they
are null.  The environment (`freeHeap`, `psramFound`, `freePsram`) is also
an input. -/

/-- Outcome of `allocateMemory`: either the device restarts
(`ESP.restart()`, line 249) or a pointer is returned (line 251). -/
inductive AllocOutcome where
  | restart : AllocOutcome
  | ok (addr : Nat) : AllocOutcome
deriving DecidableEq, Repr

/-- Function `allocateMemory` (lines 222-252).  `aPtr` is freed first (line 225) —
irrelevant to the outcome, so not modelled.  `aSize > freeHeap * 2 / 3`
selects the PSRAM-first branch (line 232); otherwise heap is tried first
with a PSRAM fallback (lines 239-244).  A null final pointer restarts the
device (lines 248-250). -/
def allocateMemory (aSize freeHeap : Nat) (psramFound : Bool) (freePsram : Nat)
    (mallocRes psMallocRes : Option Nat) : AllocOutcome :=
  let ptr : Option Nat :=
    if aSize > freeHeap * 2 / 3 then
      if psramFound && decide (freePsram > aSize) then psMallocRes else none
    else
      match mallocRes with
      | some a => some a
      | none => if psramFound && decide (freePsram > aSize) then psMallocRes else none
  match ptr with
  | none => .restart
  | some a => .ok a

/-! ## Frame-slot capacity growth (source lines 176-179)

```
if (s > fSize[ifb]) {
  fSize[ifb] = s * 4 / 3;
  fbs[ifb] = allocateMemory(fbs[ifb], fSize[ifb]);
}
```
The capacity of one slot evolves by this step as frames of various sizes
land in it. -/

/-- One capacity-growth step of a frame slot (lines 176-179): grow to
`s * 4 / 3` only when the incoming frame size `s` exceeds the current
capacity. -/
def ensureCapacity (cap s : Nat) : Nat :=
  if s > cap then s * 4 / 3 else cap

/-- Capacity of a slot after a sequence of frame sizes has landed in it,
starting from capacity `cap`. -/
def capacityAfter (cap : Nat) (sizes : List Nat) : Nat :=
  List.foldl ensureCapacity cap sizes

/-! ## Config endpoint (source lines 375-489) -/

/-- Leading decimal digits of a character list, accumulated into `acc`
(the digit-consuming loop of C `atol`). -/
def atolDigits : List Char → Nat → Nat
  | [], acc => acc
  | c :: cs, acc =>
      if c.isDigit then atolDigits cs (acc * 10 + (c.toNat - 48)) else acc

/-- Skip leading whitespace, as C `atol` does. -/
def skipWhitespace : List Char → List Char
  | [] => []
  | c :: cs => if c = ' ' || c = '\t' || c = '\n' || c = '\r' then skipWhitespace cs else c :: cs

/-- Arduino `String::toInt()` = `atol(c_str())`: optional whitespace, an
optional sign, then leading digits; `0` when no digits lead. -/
def arduinoToInt (s : String) : Int :=
  match skipWhitespace s.data with
  | '-' :: cs => -(atolDigits cs 0 : Int)
  | '+' :: cs => (atolDigits cs 0 : Int)
  | cs => (atolDigits cs 0 : Int)

/-- The request's query parameters: `args name` is `server.arg(name)`,
which is `""` when the parameter is absent from the query string. -/
def Args : Type := String → String

/-- Function `getParameterFromUrl` (lines 375-386): return `-999999` when the
argument string is empty, else `toInt` of it. -/
def getParameterFromUrl (args : Args) (name : String) : Int :=
  let var := args name
  if var.length = 0 then -999999 else arduinoToInt var

/-- The 24 sensor parameters checked by `handleConfig` (lines 409-479), in
source order; each maps 1:1 to a driver setter. -/
def configParams : List String :=
  ["resolution", "quality", "contrast", "brightness", "saturation",
   "gainceiling", "colorbar", "awb", "agc", "aec",
   "hmirror", "vflip", "awb_gain", "agc_gain", "aec_value",
   "aec2", "dcw", "bpc", "wpc", "raw_gma",
   "lenc", "special_effect", "wb_mode", "ae_level"]

/-- The driver-setter invocations performed by one `handleConfig` run: for
each parameter in source order, the setter is called with the parsed value
exactly when that value is not the sentinel `-999999` (lines 409-479).
The value is forwarded to the driver unmodified. -/
def configCalls (args : Args) : List (String × Int) :=
  configParams.filterMap (fun p =>
    let value := getParameterFromUrl args p
    if value = -999999 then none else some (p, value))

/-- Result of a `handleConfig` run. -/
inductive ConfigOutcome where
  | restart : ConfigOutcome
  | response (code : Nat) (body : String) : ConfigOutcome
deriving DecidableEq, Repr

/-- Function `handleConfig` (lines 399-489).  `setters` gives each driver setter's
return value; the source stores it in `res` and never uses it (the
`client.write(res)` at line 487 is commented out), so the outcome is
computed without consulting `setters`.  After the setter chain, a present
`reset` parameter restarts the device (line 482); otherwise
`server.send(200, "text / plain", "OK")` runs (line 488). -/
def handleConfig (args : Args) (setters : String → Int → Int) :
    List (String × Int) × ConfigOutcome :=
  let calls := configCalls args
  -- `int res` of the source receives each setter's return value and is then
  -- dead; it is reconstructible as `calls.foldl (fun r c => setters c.1 c.2) 0`
  -- but the outcome below mirrors the source in not consulting it.
  let outcome :=
    if getParameterFromUrl args "reset" ≠ -999999 then ConfigOutcome.restart
    else ConfigOutcome.response 200 "OK"
  (calls, outcome)

/-! ## HTTP literals (source lines 256-263) -/

/-- Literal `HEADER` (lines 256-258). -/
def HEADER : String :=
  "HTTP/1.1 200 OK\r\nAccess-Control-Allow-Origin: *\r\nContent-Type: multipart/x-mixed-replace; boundary=123456789000000000000987654321\r\n"

/-- Literal `BOUNDARY` (line 259). -/
def BOUNDARY : String := "\r\n--123456789000000000000987654321\r\n"

/-- Literal `CTNTTYPE` (line 260). -/
def CTNTTYPE : String := "Content-Type: image/jpeg\r\nContent-Length: "

/-! ## Client registry and connection acceptance (source lines 267-287)

A client is a connection handle: an identifier plus its liveness
(`WiFiClient::connected()`).  The registry `streamingClients` is a bounded
FIFO of capacity 10 (line 100), modelled as a list whose head is the queue
front. -/

/-- A viewer connection: identity plus what `connected()` reports. -/
structure Client where
  id : Nat
  connected : Bool
deriving DecidableEq, Repr

/-- FreeRTOS task state as observed via `eTaskGetState`. -/
inductive TaskRunState where
  | running : TaskRunState
  | suspended : TaskRunState
deriving DecidableEq, Repr

/-- What one `handleJPGSstream` run did. -/
structure AcceptResult where
  queue : List Client
  /-- Bytes written to the newly accepted connection, in order. -/
  sent : List String
  resumedCam : Bool
  resumedStream : Bool
deriving DecidableEq, Repr

/-- Function `handleJPGSstream` (lines 267-287).  `uxQueueSpacesAvailable` is
`capacity - queue length`; when it is 0 the handler returns at once
(line 270) — nothing is written and nothing is enqueued.  Otherwise the
stream prologue is written (lines 278-279), the client is appended
(line 282), and each of the two tasks is resumed if it was suspended
(lines 285-286). -/
def handleJPGSstream (q : List Client) (newClient : Client)
    (camState streamState : TaskRunState) : AcceptResult :=
  if capacity - q.length = 0 then
    ⟨q, [], false, false⟩
  else
    ⟨q ++ [newClient], [HEADER, BOUNDARY],
     camState = .suspended, streamState = .suspended⟩

/-! ## One registry service step of `streamCB` (source lines 314-345)

`streamCB` pops the front client (line 315), checks `connected()`
(line 319): a dead client is deleted and not re-enqueued (line 322); a
live client is served the currently published frame and pushed to the back
(line 339). -/

/-- The abstract frame a live client is served: the published
(pointer, length) snapshot.  Snapshot consistency is proved separately on
the interleaved model below. -/
structure Frame where
  ptr : Nat
  len : Nat
deriving DecidableEq, Repr

/-- One service step (lines 314-345): returns the registry after the step
and the serve it performed, if any. -/
def serviceStep (fr : Frame) (q : List Client) :
    List Client × Option (Client × Frame) :=
  match q with
  | [] => ([], none)
  | c :: rest =>
      if c.connected then (rest ++ [c], some (c, fr))
      else (rest, none)

/-- The registry after `n` service steps. -/
def serviceSteps (fr : Frame) (n : Nat) (q : List Client) : List Client :=
  match n with
  | 0 => q
  | n + 1 => serviceSteps fr n (serviceStep fr q).1

/-! ## Scheduler pacing and idle coordination (source lines 211-216, 302-353)

Each `streamCB` iteration recomputes `xFrequency = pdMS_TO_TICKS(1000/FPS)`
(line 304); with `activeClients` registered it divides the period by the
count and serves (lines 307-310), with none it suspends itself (line 349).
`camCB` suspends itself exactly when it observes `tStream` suspended
(lines 214-216). -/

/-- What one `streamCB` iteration does, as a function of the registered
client count. -/
inductive StreamIterAct where
  | serve (periodTicks : Nat) : StreamIterAct
  | suspendSelf : StreamIterAct
deriving DecidableEq, Repr

/-- The head of one `streamCB` loop iteration (lines 302-310, 347-350):
`xFrequency = pdMS_TO_TICKS(1000 / FPS)`, then divided by `activeClients`
when that is nonzero, else self-suspension. -/
def streamIter (activeClients : Nat) : StreamIterAct :=
  let xFrequency := pdMsToTicks (1000 / FPS)
  if activeClients ≠ 0 then .serve (xFrequency / activeClients)
  else .suspendSelf

/-- The idle check of `camCB` (lines 214-216): the capture task's state after
the check, given the observed state of `tStream` — it suspends itself
exactly when the stream task is suspended. -/
def camIdleCheck (streamState : TaskRunState) : TaskRunState :=
  if streamState = .suspended then .suspended else .running

/-! ## Action traces and the `frameSync` exclusion (C2)

The per-iteration sequence of actions of each task, transcribed
statement-by-statement from the source; `netWrite` marks each
`client->write`. -/

/-- Identifies which bytes a `client->write` call sends. -/
inductive WriteTag where
  | contentTypeHdr  -- `client->write(CTNTTYPE, cntLen)` — line 331
  | contentLength   -- `client->write(buf, strlen(buf))` — line 333
  | frameBody       -- `client->write((char*) camBuf, (size_t)camSize)` — line 334
  | boundary        -- `client->write(BOUNDARY, bdrLen)` — line 335
deriving DecidableEq, Repr

/-- One atomic action of a task body. -/
inductive Act where
  | takeFrameSync : Act            -- `xSemaphoreTake(frameSync, ...)`
  | giveFrameSync : Act            -- `xSemaphoreGive(frameSync)`
  | netWrite (tag : WriteTag) : Act
  | camRun : Act                   -- `cam.run()` + size query — lines 172-173
  | growSlot : Act                 -- lines 176-179
  | copyFrame : Act                -- `memcpy(fbs[ifb], b, s)` — line 183
  | enterCritical : Act            -- `portENTER_CRITICAL` — line 194
  | setCamBuf : Act                -- `camBuf = fbs[ifb]` — line 195
  | setCamSize : Act               -- `camSize = s` — line 196
  | toggleIfb : Act                -- lines 197-198
  | exitCritical : Act             -- `portEXIT_CRITICAL` — line 199
  | notifyStream : Act             -- `xTaskNotifyGive(tStream)` — line 206
  | sprintfLen : Act               -- `sprintf(buf, ..., camSize)` — line 332
  | queueSendBack : Act            -- `xQueueSend(streamingClients, ...)` — line 339
  | yieldTask : Act                -- `taskYIELD()`
deriving DecidableEq, Repr

/-- The actions of one `camCB` loop iteration (lines 172-209; the pacing
delay at line 187 elided between `yieldTask` and `takeFrameSync`). -/
def camIterTrace : List Act :=
  [.camRun, .growSlot, .copyFrame, .yieldTask,
   .takeFrameSync,                          -- line 191
   .enterCritical, .setCamBuf, .setCamSize, .toggleIfb, .exitCritical,
   .giveFrameSync,                          -- line 202
   .notifyStream, .yieldTask]

/-- The actions of `streamCB` serving one live client (lines 329-344). -/
def streamServeTrace : List Act :=
  [.takeFrameSync,                          -- line 329
   .netWrite .contentTypeHdr,               -- line 331
   .sprintfLen,                             -- line 332
   .netWrite .contentLength,                -- line 333
   .netWrite .frameBody,                    -- line 334
   .netWrite .boundary,                     -- line 335
   .queueSendBack,                          -- line 339
   .giveFrameSync,                          -- line 343
   .yieldTask]                              -- line 344

/-- Is `a` a network write? -/
def isNetWrite : Act → Bool
  | .netWrite _ => true
  | _ => false

/-- Does the trace perform a network write while `frameSync` is held?
`held` is whether the semaphore is held entering the trace. -/
def netWriteWhileHeld (held : Bool) : List Act → Bool
  | [] => false
  | a :: rest =>
      match a with
      | .takeFrameSync => netWriteWhileHeld true rest
      | .giveFrameSync => netWriteWhileHeld false rest
      | a' => (held && isNetWrite a') || netWriteWhileHeld held rest

/-- Does the trace perform a network write while `frameSync` is NOT held? -/
def netWriteWhileFree (held : Bool) : List Act → Bool
  | [] => false
  | a :: rest =>
      match a with
      | .takeFrameSync => netWriteWhileFree true rest
      | .giveFrameSync => netWriteWhileFree false rest
      | a' => (!held && isNetWrite a') || netWriteWhileFree held rest

/-- The sub-sequence of actions performed while `frameSync` is held
(excluding the take/give themselves). -/
def actsWhileHeld (held : Bool) : List Act → List Act
  | [] => []
  | a :: rest =>
      match a with
      | .takeFrameSync => actsWhileHeld true rest
      | .giveFrameSync => actsWhileHeld false rest
      | a' => (if held then [a'] else []) ++ actsWhileHeld held rest

/-! ## Interleaved model of publish and serve (C1)

The shared state of lines 79, 146-147: the binary semaphore `frameSync`
and the volatile pair `camBuf` / `camSize`.  `camCB` (lines 189-202)
takes `frameSync`, installs the new (pointer, length) pair, and gives it
back; `streamCB` (lines 329-343) takes `frameSync`, prints `camSize` into
the per-frame header, writes `camSize` bytes from `camBuf`, and gives it
back.  The two tasks interleave at statement granularity; each publish is
instrumented with a generation number so torn reads are expressible: the
publish of generation `g` sets both `camBufGen` and `camSizeGen` to `g`. -/

/-- Program counter of `camCB`'s publish path. -/
inductive CamPc where
  | run       -- lines 172-187: capture, copy, pace (all outside the lock)
  | takeSync  -- about to execute line 191
  | setBuf    -- holding the semaphore, about to execute line 195
  | setSize   -- about to execute line 196
  | finishPub -- about to execute lines 197-206: toggle, give, notify
deriving DecidableEq, Repr

/-- Program counter of `streamCB`'s live-serve path. -/
inductive StrPc where
  | top        -- loop head, lines 302-315
  | takeSync   -- about to execute line 329
  | writeHdr   -- holding the semaphore, about to execute line 331
  | writeLen   -- about to execute lines 332-333
  | writeBody  -- about to execute line 334
  | doneBody   -- body written, about to execute lines 335-343
deriving DecidableEq, Repr

/-- State of `camCB`'s locals. -/
structure CamTask where
  pc : CamPc
  /-- Local `ifb`, the slot toggle (lines 164, 197-198). -/
  ifb : Bool
  /-- Local `s = cam.getSize()` of the current iteration (line 173). -/
  s : Nat
deriving DecidableEq, Repr

/-- State of `streamCB`'s locals during one serve. -/
structure StrTask where
  pc : StrPc
  /-- The `Content-Length` value printed at line 332 (a read of `camSize`). -/
  hdrLen : Nat
  /-- Generation of the publish whose `camSize` the header used. -/
  hdrGen : Nat
  /-- The pointer passed to the body write at line 334 (a read of `camBuf`). -/
  bodyPtr : Nat
  /-- Generation of the publish whose `camBuf` the body write used. -/
  bodyGen : Nat
  /-- The byte count passed to the body write at line 334 (a re-read of `camSize`). -/
  bodyLen : Nat
deriving DecidableEq, Repr

/-- The whole interleaved system. -/
structure Sys where
  /-- Is the binary semaphore available (`xSemaphoreGive` at line 97 makes it so initially)? -/
  syncAvail : Bool
  /-- Shared `volatile char* camBuf` (line 147), as an abstract address. -/
  camBuf : Nat
  /-- Shared `volatile size_t camSize` (line 146). -/
  camSize : Nat
  /-- Instrumentation: generation of the publish that last wrote `camBuf`. -/
  camBufGen : Nat
  /-- Instrumentation: generation of the publish that last wrote `camSize`. -/
  camSizeGen : Nat
  /-- Has `xTaskNotifyGive(tStream)` run at least once (line 206)?  `streamCB`
  blocks on this before its first serve (lines 298-299). -/
  notified : Bool
  /-- Number of registered clients (`uxQueueMessagesWaiting`, line 307). -/
  clients : Nat
  cam : CamTask
  str : StrTask
deriving DecidableEq, Repr

/-- Address of frame slot `ifb` (the two buffers `fbs[0]`, `fbs[1]`, line 162). -/
def slotAddr (ifb : Bool) : Nat := if ifb then 1 else 0

/-- Initial state: semaphore given (line 97), nothing published yet,
no clients, both tasks at their loop heads. -/
def initSys : Sys :=
  { syncAvail := true, camBuf := 0, camSize := 0
    camBufGen := 0, camSizeGen := 0, notified := false, clients := 0
    cam := ⟨.run, false, 0⟩, str := ⟨.top, 0, 0, 0, 0, 0⟩ }

/-- Effect of `camCB` lines 172-187: capture a frame of some size `n` into
the private slot and arrive at the semaphore take. -/
def doCamRun (st : Sys) (n : Nat) : Sys :=
  { st with cam := { st.cam with pc := .takeSync, s := n } }

/-- Effect of `xSemaphoreTake(frameSync)` at line 191. -/
def doCamTake (st : Sys) : Sys :=
  { st with syncAvail := false, cam := { st.cam with pc := .setBuf } }

/-- Effect of `camBuf = fbs[ifb]` at line 195; generation of this publish
is one past the previous one. -/
def doCamSetBuf (st : Sys) : Sys :=
  { st with camBuf := slotAddr st.cam.ifb, camBufGen := st.camBufGen + 1
            cam := { st.cam with pc := .setSize } }

/-- Effect of `camSize = s` at line 196. -/
def doCamSetSize (st : Sys) : Sys :=
  { st with camSize := st.cam.s, camSizeGen := st.camSizeGen + 1
            cam := { st.cam with pc := .finishPub } }

/-- Effect of lines 197-206: toggle `ifb`, give the semaphore, notify the
stream task. -/
def doCamFinish (st : Sys) : Sys :=
  { st with syncAvail := true, notified := true
            cam := { st.cam with pc := .run, ifb := !st.cam.ifb } }

/-- Effect of `streamCB` lines 302-315: with a client registered and the
first-frame notification seen, pop a live client and head for the
semaphore take at line 329. -/
def doStrPop (st : Sys) : Sys :=
  { st with str := { st.str with pc := .takeSync } }

/-- Effect of `xSemaphoreTake(frameSync)` at line 329. -/
def doStrTake (st : Sys) : Sys :=
  { st with syncAvail := false, str := { st.str with pc := .writeHdr } }

/-- Effect of `client->write(CTNTTYPE, cntLen)` at line 331 (no shared access). -/
def doStrWriteHdr (st : Sys) : Sys :=
  { st with str := { st.str with pc := .writeLen } }

/-- Effect of lines 332-333: `sprintf(buf, "%d...", camSize)` reads
`camSize` and the result is written as the `Content-Length` value. -/
def doStrWriteLen (st : Sys) : Sys :=
  { st with str := { st.str with pc := .writeBody
                                 hdrLen := st.camSize, hdrGen := st.camSizeGen } }

/-- Effect of `client->write((char*) camBuf, (size_t)camSize)` at line 334:
reads `camBuf` and re-reads `camSize`. -/
def doStrWriteBody (st : Sys) : Sys :=
  { st with str := { st.str with pc := .doneBody
                                 bodyPtr := st.camBuf, bodyGen := st.camBufGen
                                 bodyLen := st.camSize } }

/-- Effect of lines 335-344: boundary write, re-enqueue, semaphore give. -/
def doStrFinish (st : Sys) : Sys :=
  { st with syncAvail := true, str := { st.str with pc := .top } }

/-- Effect of `handleJPGSstream` registering one more client (line 282),
possible while the registry is below capacity. -/
def doAccept (st : Sys) : Sys :=
  { st with clients := st.clients + 1 }

/-- One interleaving step of the system.  A semaphore take is enabled only
while the semaphore is available; `streamCB` serves only after the first
publish notification and with at least one client registered. -/
inductive Step : Sys → Sys → Prop where
  | camRun (st : Sys) (n : Nat) :
      st.cam.pc = .run → Step st (doCamRun st n)
  | camTake (st : Sys) :
      st.cam.pc = .takeSync → st.syncAvail = true → Step st (doCamTake st)
  | camSetBuf (st : Sys) :
      st.cam.pc = .setBuf → Step st (doCamSetBuf st)
  | camSetSize (st : Sys) :
      st.cam.pc = .setSize → Step st (doCamSetSize st)
  | camFinish (st : Sys) :
      st.cam.pc = .finishPub → Step st (doCamFinish st)
  | strPop (st : Sys) :
      st.str.pc = .top → st.notified = true → 1 ≤ st.clients →
      Step st (doStrPop st)
  | strTake (st : Sys) :
      st.str.pc = .takeSync → st.syncAvail = true → Step st (doStrTake st)
  | strWriteHdr (st : Sys) :
      st.str.pc = .writeHdr → Step st (doStrWriteHdr st)
  | strWriteLen (st : Sys) :
      st.str.pc = .writeLen → Step st (doStrWriteLen st)
  | strWriteBody (st : Sys) :
      st.str.pc = .writeBody → Step st (doStrWriteBody st)
  | strFinish (st : Sys) :
      st.str.pc = .doneBody → Step st (doStrFinish st)
  | accept (st : Sys) :
      st.clients < capacity → Step st (doAccept st)

/-- Reachability from the initial state. -/
def Reachable (st : Sys) : Prop :=
  Relation.ReflTransGen Step initSys st

/-- Does `camCB` hold the semaphore at this program counter? -/
def camHolds (st : Sys) : Prop :=
  st.cam.pc = .setBuf ∨ st.cam.pc = .setSize ∨ st.cam.pc = .finishPub

/-- Does `streamCB` hold the semaphore at this program counter? -/
def strHolds (st : Sys) : Prop :=
  st.str.pc = .writeHdr ∨ st.str.pc = .writeLen ∨
  st.str.pc = .writeBody ∨ st.str.pc = .doneBody

instance (st : Sys) : Decidable (camHolds st) := by
  unfold camHolds; infer_instance

instance (st : Sys) : Decidable (strHolds st) := by
  unfold strHolds; infer_instance

/-- The inductive invariant of the interleaved system. -/
def Inv (st : Sys) : Prop :=
  -- semaphore accounting: available exactly when neither task holds it
  (st.syncAvail = true ↔ ¬ camHolds st ∧ ¬ strHolds st) ∧
  -- mutual exclusion
  (¬ (camHolds st ∧ strHolds st)) ∧
  -- the published pair is generation-consistent except mid-publish
  (st.cam.pc = .setSize → st.camBufGen = st.camSizeGen + 1) ∧
  (st.cam.pc ≠ .setSize → st.camBufGen = st.camSizeGen) ∧
  -- the serving task's locals, while it holds the semaphore
  (st.str.pc = .writeBody →
    st.str.hdrGen = st.camSizeGen ∧ st.str.hdrLen = st.camSize) ∧
  (st.str.pc = .doneBody →
    st.str.hdrGen = st.str.bodyGen ∧ st.str.hdrLen = st.str.bodyLen ∧
    st.str.bodyGen = st.camBufGen ∧ st.str.bodyLen = st.camSize)

/-! ## Concrete inputs used to exercise the definitions -/

/-- A query string carrying only `quality=7`. -/
def demoArgs : Args := fun n => if n = "quality" then "7" else ""

/-- A query string carrying only `quality=-999999`: the parameter is
explicitly present, with a value equal to the absence sentinel. -/
def sentinelArgs : Args := fun n => if n = "quality" then "-999999" else ""

/-- A query string carrying only `quality=1`. -/
def oneArgs : Args := fun n => if n = "quality" then "1" else ""

/-- A concrete run of the interleaved system: one client registers, `camCB`
publishes a frame of size 5, then `streamCB` serves it up to the body
write. -/
def serveDemoState : Sys :=
  doStrWriteBody (doStrWriteLen (doStrWriteHdr (doStrTake (doStrPop
    (doCamFinish (doCamSetSize (doCamSetBuf (doCamTake
      (doCamRun (doAccept initSys) 5)))))))))

end Cam

/-! # Theorems -/

namespace Cam

/-- A slot never shrinks in one growth step. -/
theorem ensureCapacity_le (cap s : Nat) : cap ≤ ensureCapacity cap s := by
  unfold ensureCapacity
  split
  · exact (Nat.le_div_iff_mul_le (by omega)).mpr (by omega)
  · exact Nat.le_refl _

/-- The grown capacity covers the frame that triggered the growth. -/
theorem ensureCapacity_covers (cap s : Nat) : s ≤ ensureCapacity cap s := by
  unfold ensureCapacity
  split
  · exact (Nat.le_div_iff_mul_le (by omega)).mpr (by omega)
  · omega

/-- Capacity never shrinks across a whole sequence of frames. -/
theorem capacityAfter_mono (sizes : List Nat) :
    ∀ cap, cap ≤ capacityAfter cap sizes := by
  induction sizes with
  | nil => intro cap; exact Nat.le_refl _
  | cons s rest ih =>
      intro cap
      calc cap ≤ ensureCapacity cap s := ensureCapacity_le cap s
        _ ≤ capacityAfter (ensureCapacity cap s) rest := ih _
        _ = capacityAfter cap (s :: rest) := rfl

/-- The final capacity covers every frame of the sequence. -/
theorem capacityAfter_covers (sizes : List Nat) :
    ∀ cap, ∀ s ∈ sizes, s ≤ capacityAfter cap sizes := by
  induction sizes with
  | nil => intro cap s hs; cases hs
  | cons a rest ih =>
      intro cap s hs
      rcases List.mem_cons.mp hs with h | h
      · subst h
        calc s ≤ ensureCapacity cap s := ensureCapacity_covers cap s
          _ ≤ capacityAfter (ensureCapacity cap s) rest := capacityAfter_mono rest _
          _ = capacityAfter cap (s :: rest) := rfl
      · exact ih (ensureCapacity cap a) s h

/-- C4 counterexample: the claim's "at least 125% of the largest frame seen
so far" fails.  A slot that saw a frame of size 100 (capacity grows to
`100*4/3 = 133`) and then one of size 120 (no growth, since `120 ≤ 133`)
ends with capacity 133, which is below 125% of the largest frame seen
(`133 * 4 = 532 < 600 = 120 * 5`). -/
theorem capacity_not_125_percent :
    capacityAfter 0 [100, 120] = 133 ∧
    capacityAfter 0 [100, 120] * 4 < max 100 120 * 5 := by
  constructor <;> decide

/-- C4 (amended): each frame slot's allocated capacity is monotonically
non-decreasing: it is re-allocated only when the incoming frame size
exceeds the current capacity, and then to `size * 4 / 3` (integer
division), which is at least the new size; hence the capacity always
covers (is at least 100% of) the largest frame seen so far, though not
necessarily 125% of it; it never shrinks. -/
theorem capacity_monotone (cap s : Nat) (sizes : List Nat) :
    (s ≤ cap → ensureCapacity cap s = cap) ∧
    (cap < s → ensureCapacity cap s = s * 4 / 3) ∧
    cap ≤ ensureCapacity cap s ∧
    cap ≤ capacityAfter cap sizes ∧
    (∀ x ∈ sizes, x ≤ capacityAfter cap sizes) := by
  refine ⟨?_, ?_, ensureCapacity_le cap s, capacityAfter_mono sizes cap,
          capacityAfter_covers sizes cap⟩
  · intro h; unfold ensureCapacity; split <;> omega
  · intro h; unfold ensureCapacity; split
    · rfl
    · omega

/-- Witness for `capacity_monotone` at `cap = 133`, `s = 120`,
`sizes = [100, 120]`. -/
theorem capacity_monotone_witness :
    ensureCapacity 133 120 = 133 ∧
    133 ≤ ensureCapacity 133 120 ∧
    0 ≤ capacityAfter 0 [100, 120] ∧
    120 ≤ capacityAfter 0 [100, 120] := by
  refine ⟨(capacity_monotone 133 120 [100, 120]).1 (by decide),
          (capacity_monotone 133 120 [100, 120]).2.2.1,
          (capacity_monotone 0 120 [100, 120]).2.2.2.1,
          (capacity_monotone 0 120 [100, 120]).2.2.2.2 120 (by decide)⟩

/-- C7: `allocateMemory` either restarts or returns a pointer obtained
from a successful allocation.  If every allocator call it makes returns
null (`mallocRes = psMallocRes = none`), the device restarts with no
recovery; and any `ok` result carries a pointer produced by one of the
two allocators (hence non-null, null being `none` in the model). -/
theorem allocateMemory_fatal_or_nonnull (aSize freeHeap : Nat)
    (psramFound : Bool) (freePsram : Nat) (mallocRes psMallocRes : Option Nat) :
    (mallocRes = none → psMallocRes = none →
      allocateMemory aSize freeHeap psramFound freePsram mallocRes psMallocRes =
        .restart) ∧
    (∀ a, allocateMemory aSize freeHeap psramFound freePsram mallocRes psMallocRes =
        .ok a → mallocRes = some a ∨ psMallocRes = some a) := by
  constructor
  · intro hm hp
    subst hm; subst hp
    unfold allocateMemory
    by_cases h1 : aSize > freeHeap * 2 / 3 <;>
      by_cases h2 : (psramFound && decide (freePsram > aSize)) = true <;>
      simp [h1, h2]
  · intro a ha
    unfold allocateMemory at ha
    rcases mallocRes with _ | b <;> rcases psMallocRes with _ | c <;>
      by_cases h1 : aSize > freeHeap * 2 / 3 <;>
      by_cases h2 : (psramFound && decide (freePsram > aSize)) = true <;>
      simp [h1, h2] at ha <;> simp [ha]

/-- Witness for `allocateMemory_fatal_or_nonnull`: with both allocators
failing the device restarts; with the heap allocator returning address 7
the result is that very pointer. -/
theorem allocateMemory_fatal_or_nonnull_witness :
    allocateMemory 100 10 true 50 none none = .restart ∧
    (some 7 = some 7 ∨ (none : Option Nat) = some 7) :=
  ⟨(allocateMemory_fatal_or_nonnull 100 10 true 50 none none).1 rfl rfl,
   (allocateMemory_fatal_or_nonnull 10 1000 false 0 (some 7) none).2 7 (by decide)⟩

/-- C3: for every `N ≤ capacity`, a scheduler iteration that sees `N ≥ 1`
registered clients serves with effective period
`pdMS_TO_TICKS(1000 / FPS) / N` (the target period derived from the
configured FPS, divided by the client count), and with `N = 0` the
scheduler suspends itself, whereupon `camCB`'s idle check, observing the
stream task suspended, suspends the capture task as well. -/
theorem scheduler_pacing (n : Nat) (hn : n ≤ capacity) :
    (1 ≤ n → streamIter n = .serve (pdMsToTicks (1000 / FPS) / n)) ∧
    (n = 0 → streamIter n = .suspendSelf ∧
             camIdleCheck .suspended = .suspended) := by
  constructor
  · intro h1
    unfold streamIter
    split
    · rfl
    · omega
  · intro h0
    subst h0
    exact ⟨rfl, rfl⟩

/-- Witness for `scheduler_pacing`: with 3 clients the period is
`71 / 3 = 23` ticks (scenario A of the spec, 14 FPS); with 0 clients both
tasks suspend. -/
theorem scheduler_pacing_witness :
    streamIter 3 = .serve 23 ∧
    (streamIter 0 = .suspendSelf ∧ camIdleCheck .suspended = .suspended) :=
  ⟨(scheduler_pacing 3 (by decide)).1 (by decide),
   (scheduler_pacing 0 (by decide)).2 rfl⟩

/-- C2 counterexample: the `streamCB` serve path performs network writes
while `frameSync` is held — the per-frame header, length, body and
boundary writes (lines 331-335) all sit between the take at line 329 and
the give at line 343. -/
theorem netWrite_inside_exclusion :
    netWriteWhileHeld false streamServeTrace = true := by decide

/-- C2 (amended): in `camCB` the `frameSync` exclusion is held only across
the pointer/length swap — its held region consists exactly of the critical
pointer/length switch and contains no network write; but in `streamCB` the
exclusion IS held across network I/O: every client write of the serve step
(header, Content-Length, frame body, boundary) happens inside the region
between acquiring and releasing `frameSync`, and no client write happens
outside it. -/
theorem frameSync_exclusion_extent :
    netWriteWhileHeld false camIterTrace = false ∧
    actsWhileHeld false camIterTrace =
      [.enterCritical, .setCamBuf, .setCamSize, .toggleIfb, .exitCritical] ∧
    netWriteWhileFree false streamServeTrace = false ∧
    actsWhileHeld false streamServeTrace =
      [.netWrite .contentTypeHdr, .sprintfLen, .netWrite .contentLength,
       .netWrite .frameBody, .netWrite .boundary, .queueSendBack] := by
  refine ⟨?_, ?_, ?_, ?_⟩ <;> decide

/-- C5: a registration arriving with the registry at capacity (10) fails
silently — nothing is enqueued, nothing at all is written to the
connection (in particular no error or rejection response), and no task is
resumed; below capacity the connection is appended at the back, the stream
prologue is sent, and each suspended task is resumed. -/
theorem handleJPGSstream_capacity (q : List Client) (c : Client)
    (camS strS : TaskRunState) :
    (q.length = capacity →
      handleJPGSstream q c camS strS = ⟨q, [], false, false⟩) ∧
    (q.length < capacity →
      (handleJPGSstream q c camS strS).queue = q ++ [c] ∧
      (handleJPGSstream q c camS strS).sent = [HEADER, BOUNDARY] ∧
      ((handleJPGSstream q c camS strS).resumedCam = true ↔
        camS = .suspended) ∧
      ((handleJPGSstream q c camS strS).resumedStream = true ↔
        strS = .suspended)) := by
  constructor
  · intro hfull
    unfold handleJPGSstream
    rw [if_pos (by omega)]
  · intro hroom
    unfold handleJPGSstream
    rw [if_neg (by unfold capacity at *; omega)]
    refine ⟨rfl, rfl, ?_, ?_⟩ <;> simp

/-- Witness for `handleJPGSstream_capacity`: a full registry of 10 live
clients rejects silently; a singleton registry accepts and resumes the
suspended tasks. -/
theorem handleJPGSstream_capacity_witness :
    handleJPGSstream (List.replicate 10 ⟨0, true⟩) ⟨11, true⟩ .running .running
      = ⟨List.replicate 10 ⟨0, true⟩, [], false, false⟩ ∧
    (handleJPGSstream [⟨1, true⟩] ⟨2, true⟩ .suspended .suspended).queue
      = [⟨1, true⟩, ⟨2, true⟩] ∧
    (handleJPGSstream [⟨1, true⟩] ⟨2, true⟩ .suspended .suspended).resumedCam
      = true := by
  refine ⟨(handleJPGSstream_capacity (List.replicate 10 ⟨0, true⟩) ⟨11, true⟩
            .running .running).1 (by decide), ?_, ?_⟩
  · exact (handleJPGSstream_capacity [⟨1, true⟩] ⟨2, true⟩
      .suspended .suspended).2 (by decide) |>.1
  · exact ((handleJPGSstream_capacity [⟨1, true⟩] ⟨2, true⟩
      .suspended .suspended).2 (by decide)).2.2.1.mpr rfl

/-- Splitting an iterated service run. -/
theorem serviceSteps_add (fr : Frame) (n : Nat) :
    ∀ (m : Nat) (q : List Client),
      serviceSteps fr (m + n) q = serviceSteps fr n (serviceSteps fr m q) := by
  intro m
  induction m with
  | zero =>
      intro q
      rw [Nat.zero_add]
      rfl
  | succ m ih =>
      intro q
      have hs : m + 1 + n = (m + n) + 1 := by omega
      rw [hs]
      show serviceSteps fr (m + n) (serviceStep fr q).1 =
        serviceSteps fr n (serviceSteps fr (m + 1) q)
      rw [ih]
      rfl

/-- One service step keeps an all-connected registry all-connected (only a
live popped client is ever re-enqueued). -/
theorem serviceStep_connected (fr : Frame) (q : List Client)
    (h : ∀ x ∈ q, x.connected = true) :
    ∀ x ∈ (serviceStep fr q).1, x.connected = true := by
  cases q with
  | nil => intro x hx; cases hx
  | cons c rest =>
      have hc := h c (List.mem_cons_self c rest)
      intro x hx
      rw [serviceStep, if_pos hc] at hx
      rcases List.mem_append.mp hx with h1 | h1
      · exact h x (List.mem_cons_of_mem _ h1)
      · rw [List.mem_singleton.mp h1]; exact hc

/-- Iterated service steps keep an all-connected registry all-connected. -/
theorem serviceSteps_connected (fr : Frame) (n : Nat) :
    ∀ q, (∀ x ∈ q, x.connected = true) →
      ∀ x ∈ serviceSteps fr n q, x.connected = true := by
  induction n with
  | zero => intro q h; exact h
  | succ n ih => intro q h; exact ih _ (serviceStep_connected fr q h)

/-- After as many service steps as the registry segment `q₁` is long,
every survivor of `q₁ ++ q₂` is connected, provided the trailing segment
`q₂` was all-connected: each element of `q₁` gets popped exactly once,
dead ones are dropped and live ones rotate to the back. -/
theorem serviceSteps_purge (fr : Frame) :
    ∀ (q₁ q₂ : List Client), (∀ x ∈ q₂, x.connected = true) →
      ∀ x ∈ serviceSteps fr q₁.length (q₁ ++ q₂), x.connected = true := by
  intro q₁
  induction q₁ with
  | nil => intro q₂ h; simpa using h
  | cons c rest ih =>
      intro q₂ h
      show ∀ x ∈ serviceSteps fr rest.length
        (serviceStep fr (c :: (rest ++ q₂))).1, x.connected = true
      by_cases hc : c.connected = true
      · have hstep : (serviceStep fr (c :: (rest ++ q₂))).1 =
            rest ++ (q₂ ++ [c]) := by
          rw [serviceStep, if_pos hc, List.append_assoc]
        rw [hstep]
        refine ih (q₂ ++ [c]) ?_
        intro x hx
        rcases List.mem_append.mp hx with h1 | h1
        · exact h x h1
        · rw [List.mem_singleton.mp h1]; exact hc
      · have hstep : (serviceStep fr (c :: (rest ++ q₂))).1 = rest ++ q₂ := by
          rw [serviceStep, if_neg hc]
        rw [hstep]
        exact ih q₂ h

/-- C6: one scheduler service step pops the registry front; a client whose
liveness check fails is discarded and not re-enqueued (the registry
shrinks by one), while a live client is served the current frame and
re-enqueued at the back.  Consequently, once its disconnection is
observable, a dead client is gone after at most `capacity` service steps
(`capacity` bounds the registry length). -/
theorem serviceStep_rotation (fr : Frame) (c : Client) (rest q : List Client)
    (dead : Client) :
    (c.connected = false →
      serviceStep fr (c :: rest) = (rest, none) ∧
      (serviceStep fr (c :: rest)).1.length + 1 = (c :: rest).length) ∧
    (c.connected = true →
      serviceStep fr (c :: rest) = (rest ++ [c], some (c, fr))) ∧
    (q.length ≤ capacity → dead.connected = false → dead ∈ q →
      dead ∉ serviceSteps fr capacity q) := by
  refine ⟨?_, ?_, ?_⟩
  · intro h
    constructor
    · rw [serviceStep, if_neg (by simp [h])]
    · rw [serviceStep, if_neg (by simp [h])]
      rfl
  · intro h
    rw [serviceStep, if_pos h]
  · intro hlen hdead hmem hcontra
    have hsplit : capacity = q.length + (capacity - q.length) := by omega
    rw [hsplit, serviceSteps_add] at hcontra
    have h1 : ∀ x ∈ serviceSteps fr q.length q, x.connected = true := by
      have hp := serviceSteps_purge fr q [] (by intro x hx; cases hx)
      simpa using hp
    have h2 := serviceSteps_connected fr (capacity - q.length) _ h1 dead hcontra
    rw [hdead] at h2
    cases h2

/-- Witness for `serviceStep_rotation` on the registry
`[⟨2, false⟩, ⟨1, true⟩]` with the dead client `⟨2, false⟩` in front. -/
theorem serviceStep_rotation_witness :
    serviceStep ⟨0, 5⟩ [⟨2, false⟩, ⟨1, true⟩] = ([⟨1, true⟩], none) ∧
    serviceStep ⟨0, 5⟩ [⟨1, true⟩, ⟨2, false⟩]
      = ([⟨2, false⟩] ++ [⟨1, true⟩], some (⟨1, true⟩, ⟨0, 5⟩)) ∧
    (⟨2, false⟩ : Client) ∉ serviceSteps ⟨0, 5⟩ capacity
      [⟨2, false⟩, ⟨1, true⟩] := by
  refine ⟨((serviceStep_rotation ⟨0, 5⟩ ⟨2, false⟩ [⟨1, true⟩]
            [⟨2, false⟩, ⟨1, true⟩] ⟨2, false⟩).1 rfl).1,
          (serviceStep_rotation ⟨0, 5⟩ ⟨1, true⟩ [⟨2, false⟩]
            [⟨2, false⟩, ⟨1, true⟩] ⟨2, false⟩).2.1 rfl,
          (serviceStep_rotation ⟨0, 5⟩ ⟨2, false⟩ [⟨1, true⟩]
            [⟨2, false⟩, ⟨1, true⟩] ⟨2, false⟩).2.2 (by decide) rfl
            (by decide)⟩

/-- A string of length zero is the empty string. -/
theorem string_of_length_zero {s : String} (h : s.length = 0) : s = "" := by
  cases s with
  | mk data =>
      cases data with
      | nil => rfl
      | cons c cs => simp [String.length] at h

/-- C8: a config parameter whose argument string is empty (i.e. absent
from the query) never causes its driver setter to be invoked; an invoked
setter implies the parameter was explicitly present; and no value-range
validation happens — any present value whose parse is not the absence
sentinel is forwarded verbatim to the driver setter. -/
theorem config_absent_skips (args : Args) (name : String) (v : Int) :
    (args name = "" → (name, v) ∉ configCalls args) ∧
    ((name, v) ∈ configCalls args → args name ≠ "") ∧
    (name ∈ configParams → args name ≠ "" →
      arduinoToInt (args name) ≠ -999999 →
      (name, arduinoToInt (args name)) ∈ configCalls args) := by
  have key : args name = "" → (name, v) ∉ configCalls args := by
    intro habs hmem
    have hval : getParameterFromUrl args name = -999999 := by
      unfold getParameterFromUrl
      simp [habs]
    unfold configCalls at hmem
    rcases List.mem_filterMap.mp hmem with ⟨a, _, hfa⟩
    by_cases hs : getParameterFromUrl args a = -999999
    · simp only [hs, if_pos] at hfa
      cases hfa
    · simp only [if_neg hs, Option.some.injEq, Prod.mk.injEq] at hfa
      exact hs (hfa.1 ▸ hval)
  refine ⟨key, fun hmem habs => key habs hmem, ?_⟩
  intro hmemP hne hsent
  have hgp : getParameterFromUrl args name = arduinoToInt (args name) := by
    unfold getParameterFromUrl
    rw [if_neg (fun hlen => hne (string_of_length_zero hlen))]
  unfold configCalls
  refine List.mem_filterMap.mpr ⟨name, hmemP, ?_⟩
  simp only [hgp]
  rw [if_neg hsent]

/-- Witness for `config_absent_skips` with the query `quality=7`: the
absent `brightness` setter is not invoked, and the present `quality`
value 7 is forwarded unvalidated. -/
theorem config_absent_skips_witness :
    ("brightness", (3 : Int)) ∉ configCalls demoArgs ∧
    ("quality", arduinoToInt (demoArgs "quality")) ∈ configCalls demoArgs := by
  refine ⟨(config_absent_skips demoArgs "brightness" 3).1 (by decide),
          (config_absent_skips demoArgs "quality" 7).2.2 (by decide)
            (by decide) (by decide)⟩

/-- C9 counterexample: the absence sentinel `-999999` is NOT
distinguishable from a legitimate supplied value.  With the query
`quality=-999999` the parameter is explicitly present (its argument string
is nonempty), yet no setter at all is invoked; with `quality=1` the setter
is invoked — so the decision to invoke the setter depends on the
particular value supplied. -/
theorem sentinel_not_distinguishable :
    sentinelArgs "quality" ≠ "" ∧
    configCalls sentinelArgs = [] ∧
    oneArgs "quality" ≠ "" ∧
    configCalls oneArgs = [("quality", 1)] := by
  refine ⟨by decide, by decide, by decide, by decide⟩

/-- C9 (amended): the sentinel collides with a legitimate value — for a
parameter explicitly present in the query, the setter is invoked exactly
when the parsed value differs from `-999999`; a supplied value parsing to
`-999999` is silently misinterpreted as absence and its setter skipped. -/
theorem sentinel_collision (args : Args) (name : String) (v : Int) :
    (args name ≠ "" → arduinoToInt (args name) = -999999 →
      (name, v) ∉ configCalls args) ∧
    (name ∈ configParams → args name ≠ "" →
      arduinoToInt (args name) ≠ -999999 →
      (name, arduinoToInt (args name)) ∈ configCalls args) := by
  constructor
  · intro hne hsent hmem
    have hgp : getParameterFromUrl args name = -999999 := by
      unfold getParameterFromUrl
      rw [if_neg (fun hlen => hne (string_of_length_zero hlen))]
      exact hsent
    unfold configCalls at hmem
    rcases List.mem_filterMap.mp hmem with ⟨a, _, hfa⟩
    by_cases hs : getParameterFromUrl args a = -999999
    · simp only [hs, if_pos] at hfa
      cases hfa
    · simp only [if_neg hs, Option.some.injEq, Prod.mk.injEq] at hfa
      exact hs (hfa.1 ▸ hgp)
  · intro hmemP hne hsent
    have hgp : getParameterFromUrl args name = arduinoToInt (args name) := by
      unfold getParameterFromUrl
      rw [if_neg (fun hlen => hne (string_of_length_zero hlen))]
    unfold configCalls
    refine List.mem_filterMap.mpr ⟨name, hmemP, ?_⟩
    simp only [hgp]
    rw [if_neg hsent]

/-- Witness for `sentinel_collision`: `quality=-999999` skips the setter,
`quality=1` invokes it. -/
theorem sentinel_collision_witness :
    ("quality", (-999999 : Int)) ∉ configCalls sentinelArgs ∧
    ("quality", arduinoToInt (oneArgs "quality")) ∈ configCalls oneArgs := by
  refine ⟨(sentinel_collision sentinelArgs "quality" (-999999)).1
            (by decide) (by decide),
          (sentinel_collision oneArgs "quality" 1).2
            (by decide) (by decide) (by decide)⟩

/-- C10: a `GET /config` request whose query has no `reset` parameter
always ends with an HTTP 200 response with body `"OK"`, whatever driver
setters ran and whatever values they returned (the source's `res` variable
is dead: every setter return value is discarded). -/
theorem handleConfig_sends_ok (args : Args) (setters : String → Int → Int)
    (h : args "reset" = "") :
    (handleConfig args setters).2 = .response 200 "OK" := by
  have hval : getParameterFromUrl args "reset" = -999999 := by
    unfold getParameterFromUrl
    simp [h]
  unfold handleConfig
  simp [hval]

/-- Witness for `handleConfig_sends_ok` on the query `quality=7` with an
arbitrary concrete setter oracle. -/
theorem handleConfig_sends_ok_witness :
    (handleConfig demoArgs (fun _ _ => 42)).2 = .response 200 "OK" :=
  handleConfig_sends_ok demoArgs (fun _ _ => 42) (by decide)

/-- The invariant holds initially. -/
theorem inv_init : Inv initSys := by
  unfold Inv
  decide

/-- The invariant is preserved by every interleaving step. -/
theorem inv_step {st st' : Sys} (hinv : Inv st) (hstep : Step st st') :
    Inv st' := by
  obtain ⟨hA, hB, hC, hD, hE, hF⟩ := hinv
  cases hstep with
  | camRun n hpc =>
      refine ⟨?_, ?_, ?_, ?_, ?_, ?_⟩ <;>
        simp_all [doCamRun, camHolds, strHolds]
  | camTake hpc havail =>
      refine ⟨?_, ?_, ?_, ?_, ?_, ?_⟩ <;>
        simp_all [doCamTake, camHolds, strHolds]
  | camSetBuf hpc =>
      refine ⟨?_, ?_, ?_, ?_, ?_, ?_⟩ <;>
        simp_all [doCamSetBuf, camHolds, strHolds]
  | camSetSize hpc =>
      refine ⟨?_, ?_, ?_, ?_, ?_, ?_⟩ <;>
        simp_all [doCamSetSize, camHolds, strHolds]
  | camFinish hpc =>
      refine ⟨?_, ?_, ?_, ?_, ?_, ?_⟩ <;>
        simp_all [doCamFinish, camHolds, strHolds]
  | strPop hpc hnot hcl =>
      refine ⟨?_, ?_, ?_, ?_, ?_, ?_⟩ <;>
        simp_all [doStrPop, camHolds, strHolds]
  | strTake hpc havail =>
      refine ⟨?_, ?_, ?_, ?_, ?_, ?_⟩ <;>
        simp_all [doStrTake, camHolds, strHolds]
  | strWriteHdr hpc =>
      refine ⟨?_, ?_, ?_, ?_, ?_, ?_⟩ <;>
        simp_all [doStrWriteHdr, camHolds, strHolds]
  | strWriteLen hpc =>
      refine ⟨?_, ?_, ?_, ?_, ?_, ?_⟩ <;>
        simp_all [doStrWriteLen, camHolds, strHolds]
  | strWriteBody hpc =>
      refine ⟨?_, ?_, ?_, ?_, ?_, ?_⟩ <;>
        simp_all [doStrWriteBody, camHolds, strHolds]
  | strFinish hpc =>
      refine ⟨?_, ?_, ?_, ?_, ?_, ?_⟩ <;>
        simp_all [doStrFinish, camHolds, strHolds]
  | accept hcl =>
      refine ⟨?_, ?_, ?_, ?_, ?_, ?_⟩ <;>
        simp_all [doAccept, camHolds, strHolds]

/-- Every reachable state satisfies the invariant. -/
theorem reachable_inv {st : Sys} (h : Reachable st) : Inv st := by
  induction h with
  | refl => exact inv_init
  | tail _ hstep ih => exact inv_step ih hstep

/-- C1: whenever `streamCB` has just completed the frame-body write for a
live client (program point after line 334), the `Content-Length` value it
printed equals the byte count it passed to the body write, both reads
stem from one single publish (the header's generation equals the body's
generation), and that generation is the currently published one: header
length, body pointer and body length form the pair installed by a single
`camCB` publish — never a header length from one generation with a body
from another. -/
theorem streamServe_snapshot_consistent (st : Sys) (h : Reachable st)
    (hpc : st.str.pc = .doneBody) :
    st.str.hdrLen = st.str.bodyLen ∧ st.str.hdrGen = st.str.bodyGen ∧
    st.str.bodyGen = st.camBufGen ∧ st.str.bodyLen = st.camSize := by
  obtain ⟨-, -, -, -, -, hF⟩ := reachable_inv h
  obtain ⟨h1, h2, h3, h4⟩ := hF hpc
  exact ⟨h2, h1, h3, h4⟩

/-- The demo run is reachable: register a client, publish a frame of size
5, then serve it through the body write. -/
theorem serveDemo_reachable : Reachable serveDemoState := by
  unfold serveDemoState
  apply Relation.ReflTransGen.tail _ (Step.strWriteBody _ rfl)
  apply Relation.ReflTransGen.tail _ (Step.strWriteLen _ rfl)
  apply Relation.ReflTransGen.tail _ (Step.strWriteHdr _ rfl)
  apply Relation.ReflTransGen.tail _ (Step.strTake _ rfl rfl)
  apply Relation.ReflTransGen.tail _ (Step.strPop _ rfl rfl (by decide))
  apply Relation.ReflTransGen.tail _ (Step.camFinish _ rfl)
  apply Relation.ReflTransGen.tail _ (Step.camSetSize _ rfl)
  apply Relation.ReflTransGen.tail _ (Step.camSetBuf _ rfl)
  apply Relation.ReflTransGen.tail _ (Step.camTake _ rfl rfl)
  apply Relation.ReflTransGen.tail _ (Step.camRun _ 5 rfl)
  apply Relation.ReflTransGen.tail _ (Step.accept _ (by decide))
  exact Relation.ReflTransGen.refl

/-- Witness for `streamServe_snapshot_consistent` at the concrete
reachable state `serveDemoState`. -/
theorem streamServe_snapshot_consistent_witness :
    serveDemoState.str.pc = .doneBody ∧
    (serveDemoState.str.hdrLen = serveDemoState.str.bodyLen ∧
     serveDemoState.str.hdrGen = serveDemoState.str.bodyGen ∧
     serveDemoState.str.bodyGen = serveDemoState.camBufGen ∧
     serveDemoState.str.bodyLen = serveDemoState.camSize) :=
  ⟨rfl, streamServe_snapshot_consistent serveDemoState serveDemo_reachable rfl⟩

end Cam
